import Mathlib

/-!
# Verification of the desktop-automation command layer

Shallow embedding of `src/src-tauri/src/main.rs` (GoldCode001/goldmanAI).
Pure decision logic (token resolution, the shortcut press/release protocol,
the window-mode transitions) is translated into executable Lean functions;
platform side effects (enigo input injection, Tauri window show/hide/focus)
are recorded as explicit event lists, and the fallible platform results the
code branches on (the main-window visibility query, the main-window focus
call) are passed in as parameters.  Injector construction and the hide/show
visibility calls, whose failures the code merely propagates verbatim, are
modelled as succeeding.  Rust's `to_lowercase`/`len()` on the ASCII tokens
of this command surface coincide with `lowerAscii` below and
`String.utf8ByteSize`.
-/

namespace Goldman

/-- Rust's `str::to_lowercase` as used on this command surface (ASCII
case-folding, character by character). -/
def lowerAscii (s : String) : String := String.mk (s.data.map Char.toLower)

/-- Logical keys, mirroring the `enigo::Key` variants the source uses. -/
inductive Key where
  | Return | Tab | Escape | Backspace | Delete
  | UpArrow | DownArrow | LeftArrow | RightArrow
  | Home | End | PageUp | PageDown | Space
  | Shift | Control | Alt | Meta
  deriving DecidableEq, Repr

/-- Mouse buttons, mirroring `enigo::Button`. -/
inductive Button where
  | Left | Right | Middle
  deriving DecidableEq, Repr

/-- One recorded keyboard-injection effect: `press`/`release` are
`enigo.key(_, Direction::Press/Release)`, `keyClick` is
`enigo.key(_, Direction::Click)`, `text` is `enigo.text(_)`. -/
inductive KbdEvent where
  | press (k : Key)
  | release (k : Key)
  | keyClick (k : Key)
  | text (s : String)
  deriving DecidableEq, Repr

/-- One recorded mouse-injection effect. -/
inductive MouseEvent where
  | click (b : Button)
  deriving DecidableEq, Repr

/-- The string-table lookup of `keyboard_press` (main.rs lines 97-117):
Rust `match key.to_lowercase().as_str()`, arm by arm in source order. -/
def resolve_key (key : String) : Except String Key :=
  if lowerAscii key = "enter" then .ok .Return
  else if lowerAscii key = "return" then .ok .Return
  else if lowerAscii key = "tab" then .ok .Tab
  else if lowerAscii key = "escape" then .ok .Escape
  else if lowerAscii key = "esc" then .ok .Escape
  else if lowerAscii key = "backspace" then .ok .Backspace
  else if lowerAscii key = "delete" then .ok .Delete
  else if lowerAscii key = "del" then .ok .Delete
  else if lowerAscii key = "up" then .ok .UpArrow
  else if lowerAscii key = "uparrow" then .ok .UpArrow
  else if lowerAscii key = "down" then .ok .DownArrow
  else if lowerAscii key = "downarrow" then .ok .DownArrow
  else if lowerAscii key = "left" then .ok .LeftArrow
  else if lowerAscii key = "leftarrow" then .ok .LeftArrow
  else if lowerAscii key = "right" then .ok .RightArrow
  else if lowerAscii key = "rightarrow" then .ok .RightArrow
  else if lowerAscii key = "home" then .ok .Home
  else if lowerAscii key = "end" then .ok .End
  else if lowerAscii key = "pageup" then .ok .PageUp
  else if lowerAscii key = "pagedown" then .ok .PageDown
  else if lowerAscii key = "space" then .ok .Space
  else if lowerAscii key = "shift" then .ok .Shift
  else if lowerAscii key = "control" then .ok .Control
  else if lowerAscii key = "ctrl" then .ok .Control
  else if lowerAscii key = "alt" then .ok .Alt
  else if lowerAscii key = "meta" then .ok .Meta
  else if lowerAscii key = "windows" then .ok .Meta
  else if lowerAscii key = "cmd" then .ok .Meta
  else if lowerAscii key = "command" then .ok .Meta
  else .error ("Unsupported key: " ++ key
      ++ ". Use special key names like 'enter', 'tab', 'escape', etc.")

/-- `keyboard_press` (main.rs lines 94-121): resolve, then one atomic
`Direction::Click` key event; an unresolved token yields the error and no
event. -/
def keyboard_press (key : String) : Except String String × List KbdEvent :=
  match resolve_key key with
  | .ok k => (.ok ("Pressed key: " ++ key), [.keyClick k])
  | .error e => (.error e, [])

/-- A token of a shortcut resolves to a held modifier or to a single
printable character (injected as text, lowercased as in the source). -/
inductive ShortcutTok where
  | mod (k : Key)
  | ch (s : String)
  deriving DecidableEq, Repr

/-- The press-phase match of `keyboard_shortcut` (main.rs lines 129-139):
modifier aliases first, then the `single if single.len() == 1` guard on the
lowercased token (Rust `len()` is the UTF-8 byte length), else unsupported. -/
def resolve_shortcut_key (key : String) : Option ShortcutTok :=
  if lowerAscii key = "shift" then some (.mod .Shift)
  else if lowerAscii key = "control" then some (.mod .Control)
  else if lowerAscii key = "ctrl" then some (.mod .Control)
  else if lowerAscii key = "alt" then some (.mod .Alt)
  else if lowerAscii key = "meta" then some (.mod .Meta)
  else if lowerAscii key = "windows" then some (.mod .Meta)
  else if lowerAscii key = "cmd" then some (.mod .Meta)
  else if lowerAscii key = "command" then some (.mod .Meta)
  else if (lowerAscii key).utf8ByteSize = 1 then some (.ch (lowerAscii key))
  else none

/-- The release-phase match of `keyboard_shortcut` (main.rs lines 145-151):
only modifier aliases release; every other token is skipped (`_ => continue`). -/
def shortcut_release_key (key : String) : Option Key :=
  if lowerAscii key = "shift" then some .Shift
  else if lowerAscii key = "control" then some .Control
  else if lowerAscii key = "ctrl" then some .Control
  else if lowerAscii key = "alt" then some .Alt
  else if lowerAscii key = "meta" then some .Meta
  else if lowerAscii key = "windows" then some .Meta
  else if lowerAscii key = "cmd" then some .Meta
  else if lowerAscii key = "command" then some .Meta
  else none

/-- The event recorded for a resolved token in the press phase: modifiers
are pressed, single characters are injected as text immediately. -/
def pressEvent : ShortcutTok → KbdEvent
  | .mod k => .press k
  | .ch c => .text c

/-- The press loop of `keyboard_shortcut` (main.rs lines 128-141): tokens are
resolved lazily in order; an unresolved token returns the error at once,
keeping the events already issued for earlier tokens. -/
def pressPhase : List String → Except String Unit × List KbdEvent
  | [] => (.ok (), [])
  | key :: rest =>
    match resolve_shortcut_key key with
    | some tok =>
      let r := pressPhase rest
      (r.1, pressEvent tok :: r.2)
    | none => (.error ("Unsupported key in shortcut: " ++ key), [])

/-- The release loop of `keyboard_shortcut` (main.rs lines 144-153): the same
tokens in reverse order, releasing only those that match a modifier alias. -/
def releasePhase (keys : List String) : List KbdEvent :=
  keys.reverse.filterMap fun k => (shortcut_release_key k).map KbdEvent.release

/-- `keyboard_shortcut` (main.rs lines 124-156): press phase, then (only if
every token resolved) release phase and the confirmation string built with
`keys.join("+")`. -/
def keyboard_shortcut (keys : List String) : Except String String × List KbdEvent :=
  match pressPhase keys with
  | (.ok _, evs) =>
    (.ok ("Executed keyboard shortcut: " ++ String.intercalate "+" keys),
     evs ++ releasePhase keys)
  | (.error e, evs) => (.error e, evs)

/-- `mouse_click` (main.rs lines 57-68): lowercased token against the three
buttons; anything else errors, echoing the original token, before any
injection. -/
def mouse_click (button : String) : Except String String × List MouseEvent :=
  if lowerAscii button = "left" then
    (.ok ("Clicked " ++ button ++ " mouse button"), [.click .Left])
  else if lowerAscii button = "right" then
    (.ok ("Clicked " ++ button ++ " mouse button"), [.click .Right])
  else if lowerAscii button = "middle" then
    (.ok ("Clicked " ++ button ++ " mouse button"), [.click .Middle])
  else
    (.error ("Invalid button: " ++ button ++ ". Use 'left', 'right', or 'middle'"), [])

/-- The observable window state owned by the host windowing subsystem:
whether each of the two named webview windows exists, and whether each is
visible. -/
structure WinState where
  mainExists : Bool
  bubbleExists : Bool
  mainVisible : Bool
  bubbleVisible : Bool
  deriving DecidableEq, Repr

/-- One recorded show/hide/focus effect issued to the windowing subsystem. -/
inductive WinEvent where
  | showMain
  | hideMain
  | focusMain
  | showBubble
  | focusBubble
  deriving DecidableEq, Repr

/-- `toggle_main_window` (main.rs lines 160-178).  `visQ` is the result of
`main_window.is_visible()` (the code takes `unwrap_or(false)`), `focusMain`
the result of `main_window.set_focus()` in the show-main branch (the code
propagates its error with `map_err`, after `show()` already ran); the
bubble-branch `set_focus().ok()` is issued but its result is discarded. -/
def toggle_main_window (s : WinState) (visQ : Except String Bool)
    (focusMain : Except String Unit) :
    Except String String × WinState × List WinEvent :=
  if s.mainExists = false then (.error "Main window not found", s, [])
  else if s.bubbleExists = false then (.error "Bubble window not found", s, [])
  else if visQ.toOption.getD false then
    (.ok "Switched to bubble mode",
     { s with mainVisible := false, bubbleVisible := true },
     [.hideMain, .showBubble, .focusBubble])
  else
    match focusMain with
    | .ok _ => (.ok "Switched to main window",
        { s with mainVisible := true }, [.showMain, .focusMain])
    | .error e => (.error e,
        { s with mainVisible := true }, [.showMain, .focusMain])

/-- `minimize_to_bubble` (main.rs lines 181-192): both windows must exist;
then hide main, show bubble, best-effort focus bubble. -/
def minimize_to_bubble (s : WinState) :
    Except String String × WinState × List WinEvent :=
  if s.mainExists = false then (.error "Main window not found", s, [])
  else if s.bubbleExists = false then (.error "Bubble window not found", s, [])
  else (.ok "Minimized to bubble",
    { s with mainVisible := false, bubbleVisible := true },
    [.hideMain, .showBubble, .focusBubble])

/-- `expand_from_bubble` (main.rs lines 195-203): only the main window is
looked up; show main, then `set_focus()` whose failure fails the call. -/
def expand_from_bubble (s : WinState) (focusMain : Except String Unit) :
    Except String String × WinState × List WinEvent :=
  if s.mainExists = false then (.error "Main window not found", s, [])
  else
    match focusMain with
    | .ok _ => (.ok "Expanded to main window",
        { s with mainVisible := true }, [.showMain, .focusMain])
    | .error e => (.error e,
        { s with mainVisible := true }, [.showMain, .focusMain])

/-- The alias table of `keyboard_press`, read off the match arms of
main.rs lines 98-115: for each logical key, the lowercased tokens that
resolve to it. -/
def aliasesOf : Key → List String
  | .Return => ["enter", "return"]
  | .Tab => ["tab"]
  | .Escape => ["escape", "esc"]
  | .Backspace => ["backspace"]
  | .Delete => ["delete", "del"]
  | .UpArrow => ["up", "uparrow"]
  | .DownArrow => ["down", "downarrow"]
  | .LeftArrow => ["left", "leftarrow"]
  | .RightArrow => ["right", "rightarrow"]
  | .Home => ["home"]
  | .End => ["end"]
  | .PageUp => ["pageup"]
  | .PageDown => ["pagedown"]
  | .Space => ["space"]
  | .Shift => ["shift"]
  | .Control => ["control", "ctrl"]
  | .Alt => ["alt"]
  | .Meta => ["meta", "windows", "cmd", "command"]

theorem pressPhase_all_resolved (keys : List String)
    (h : ∀ k ∈ keys, (resolve_shortcut_key k).isSome = true) :
    pressPhase keys =
      (.ok (), keys.filterMap fun k => (resolve_shortcut_key k).map pressEvent) := by
  induction keys with
  | nil => rfl
  | cons key rest ih =>
    obtain ⟨tok, htok⟩ :=
      Option.isSome_iff_exists.mp (h key (List.mem_cons_self _ _))
    have ih2 := ih fun k hk => h k (List.mem_cons_of_mem _ hk)
    simp [pressPhase, htok, ih2]

theorem pressPhase_first_unresolved (keys : List String) (k : String)
    (rest : List String)
    (h : keys.dropWhile (fun t => (resolve_shortcut_key t).isSome) = k :: rest) :
    pressPhase keys =
      (.error ("Unsupported key in shortcut: " ++ k),
       (keys.takeWhile fun t => (resolve_shortcut_key t).isSome).filterMap
         fun t => (resolve_shortcut_key t).map pressEvent) := by
  induction keys with
  | nil => simp [List.dropWhile] at h
  | cons key rest2 ih =>
    rw [List.dropWhile_cons] at h
    by_cases hk : (resolve_shortcut_key key).isSome = true
    · rw [if_pos hk] at h
      obtain ⟨tok, htok⟩ := Option.isSome_iff_exists.mp hk
      have ih2 := ih h
      simp [pressPhase, htok, ih2, List.takeWhile_cons, hk]
    · rw [if_neg hk] at h
      obtain ⟨rfl, rfl⟩ : key = k ∧ rest2 = rest := by
        exact ⟨(List.cons.injEq _ _ _ _ ▸ h).1, (List.cons.injEq _ _ _ _ ▸ h).2⟩
      have hnone : resolve_shortcut_key key = none :=
        Option.not_isSome_iff_eq_none.mp hk
      simp [pressPhase, hnone, List.takeWhile_cons, hk]

/-- Claim C4: for a token list of valid modifier aliases and single
printable characters, `keyboard_shortcut` presses modifiers in list order,
injects each single character as text immediately at its position in the
press phase, and releases modifiers in reverse list order, skipping
single-character tokens in the release phase. -/
theorem shortcut_press_release_protocol (keys : List String)
    (h : ∀ k ∈ keys, (resolve_shortcut_key k).isSome = true) :
    keyboard_shortcut keys =
      (.ok ("Executed keyboard shortcut: " ++ String.intercalate "+" keys),
       (keys.filterMap fun k => (resolve_shortcut_key k).map pressEvent)
         ++ keys.reverse.filterMap
              fun k => (shortcut_release_key k).map KbdEvent.release) := by
  unfold keyboard_shortcut
  rw [pressPhase_all_resolved keys h]
  rfl

/-- Claim C4 witness: `keyboard_shortcut ["ctrl","shift","s"]` issues exactly
`Press Control, Press Shift, Text "s", Release Shift, Release Control`. -/
theorem shortcut_press_release_protocol_witness :
    keyboard_shortcut ["ctrl", "shift", "s"] =
      (.ok "Executed keyboard shortcut: ctrl+shift+s",
       [.press .Control, .press .Shift, .text "s",
        .release .Shift, .release .Control]) := by
  rw [shortcut_press_release_protocol ["ctrl", "shift", "s"] (by decide)]
  rfl

/-- Claim C10: `keyboard_shortcut` on the empty token list succeeds with a
confirmation string and issues no event. -/
theorem shortcut_empty_ok :
    keyboard_shortcut [] = (.ok "Executed keyboard shortcut: ", []) := rfl

/-- Claim C1 counterexample: `keyboard_shortcut ["ctrl", "zz"]` fails on the
second token, yet the press event for the first token was already issued —
the command does not fail "before any event is issued". -/
theorem shortcut_lazy_injection_cex :
    (keyboard_shortcut ["ctrl", "zz"]).1
        = .error "Unsupported key in shortcut: zz" ∧
    (keyboard_shortcut ["ctrl", "zz"]).2 = [.press .Control] :=
  ⟨rfl, rfl⟩

/-- Claim C1 amended: if some token of the list fails to resolve, the whole
command fails with the error for the first unresolvable token and no release
event is ever issued, but the press-phase events of the tokens before it
(modifier presses and text injections) have already been issued. -/
theorem shortcut_first_bad_token (keys : List String) (k : String)
    (rest : List String)
    (h : keys.dropWhile (fun t => (resolve_shortcut_key t).isSome) = k :: rest) :
    keyboard_shortcut keys =
      (.error ("Unsupported key in shortcut: " ++ k),
       (keys.takeWhile fun t => (resolve_shortcut_key t).isSome).filterMap
         fun t => (resolve_shortcut_key t).map pressEvent) := by
  unfold keyboard_shortcut
  rw [pressPhase_first_unresolved keys k rest h]

/-- Claim C1 amended, witness at `["ctrl", "zz"]`. -/
theorem shortcut_first_bad_token_witness :
    keyboard_shortcut ["ctrl", "zz"]
      = (.error "Unsupported key in shortcut: zz", [.press .Control]) := by
  rw [shortcut_first_bad_token ["ctrl", "zz"] "zz" [] (by decide)]
  rfl

/-- Claim C7: any button token other than left/right/middle
(case-insensitive) makes `mouse_click` fail with the invalid-button error
carrying the original token, and no click is injected. -/
theorem mouse_click_invalid (b : String)
    (h1 : lowerAscii b ≠ "left") (h2 : lowerAscii b ≠ "right")
    (h3 : lowerAscii b ≠ "middle") :
    mouse_click b =
      (.error ("Invalid button: " ++ b ++ ". Use 'left', 'right', or 'middle'"),
       []) := by
  unfold mouse_click
  rw [if_neg h1, if_neg h2, if_neg h3]

/-- Claim C7 witness: `mouse_click "purple"` fails without any injection. -/
theorem mouse_click_invalid_witness :
    mouse_click "purple" =
      (.error "Invalid button: purple. Use 'left', 'right', or 'middle'", []) := by
  rw [mouse_click_invalid "purple" (by decide) (by decide) (by decide)]
  rfl

/-- Claim C5: key resolution is case-insensitive and alias-complete; every
token whose lowercasing is in the alias table of a `KeySymbol` resolves to
that identical symbol, so all aliases of one symbol (in any case) resolve
identically. -/
theorem resolve_key_alias_complete (k : Key) (t : String)
    (h : lowerAscii t ∈ aliasesOf k) : resolve_key t = .ok k := by
  cases k <;>
    simp only [aliasesOf, List.mem_cons, List.mem_singleton,
      List.not_mem_nil, or_false] at h <;>
    (repeat' rcases h with h | h) <;>
    (unfold resolve_key; rw [h]; rfl)

/-- Claim C5 witness: the upper-case alias `"CONTROL"` resolves to
`Control`, like `"ctrl"` does. -/
theorem resolve_key_alias_complete_witness :
    resolve_key "CONTROL" = .ok .Control ∧ resolve_key "ctrl" = .ok .Control :=
  ⟨resolve_key_alias_complete .Control "CONTROL" (by decide),
   resolve_key_alias_complete .Control "ctrl" (by decide)⟩

/-- Claim C6: a single-character token is rejected by standalone
`keyboard_press` (it matches no named alias, so `UnsupportedKey` is returned
and no event issued), while the same token is accepted inside
`keyboard_shortcut`, which injects it as text. -/
theorem single_char_press_vs_shortcut (t : String)
    (h : (lowerAscii t).utf8ByteSize = 1) :
    keyboard_press t =
      (.error ("Unsupported key: " ++ t
        ++ ". Use special key names like 'enter', 'tab', 'escape', etc."), []) ∧
    keyboard_shortcut [t] =
      (.ok ("Executed keyboard shortcut: " ++ t), [.text (lowerAscii t)]) := by
  have ne : ∀ a : String, a.utf8ByteSize ≠ 1 → lowerAscii t ≠ a :=
    fun a ha e => ha (e ▸ h)
  have hres : resolve_shortcut_key t = some (.ch (lowerAscii t)) := by
    unfold resolve_shortcut_key
    rw [if_neg (ne "shift" (by decide)), if_neg (ne "control" (by decide)),
      if_neg (ne "ctrl" (by decide)), if_neg (ne "alt" (by decide)),
      if_neg (ne "meta" (by decide)), if_neg (ne "windows" (by decide)),
      if_neg (ne "cmd" (by decide)), if_neg (ne "command" (by decide)),
      if_pos h]
  have hrel : shortcut_release_key t = none := by
    unfold shortcut_release_key
    rw [if_neg (ne "shift" (by decide)), if_neg (ne "control" (by decide)),
      if_neg (ne "ctrl" (by decide)), if_neg (ne "alt" (by decide)),
      if_neg (ne "meta" (by decide)), if_neg (ne "windows" (by decide)),
      if_neg (ne "cmd" (by decide)), if_neg (ne "command" (by decide))]
  have hkey : resolve_key t = .error ("Unsupported key: " ++ t
      ++ ". Use special key names like 'enter', 'tab', 'escape', etc.") := by
    unfold resolve_key
    rw [if_neg (ne "enter" (by decide)), if_neg (ne "return" (by decide)),
      if_neg (ne "tab" (by decide)), if_neg (ne "escape" (by decide)),
      if_neg (ne "esc" (by decide)), if_neg (ne "backspace" (by decide)),
      if_neg (ne "delete" (by decide)), if_neg (ne "del" (by decide)),
      if_neg (ne "up" (by decide)), if_neg (ne "uparrow" (by decide)),
      if_neg (ne "down" (by decide)), if_neg (ne "downarrow" (by decide)),
      if_neg (ne "left" (by decide)), if_neg (ne "leftarrow" (by decide)),
      if_neg (ne "right" (by decide)), if_neg (ne "rightarrow" (by decide)),
      if_neg (ne "home" (by decide)), if_neg (ne "end" (by decide)),
      if_neg (ne "pageup" (by decide)), if_neg (ne "pagedown" (by decide)),
      if_neg (ne "space" (by decide)), if_neg (ne "shift" (by decide)),
      if_neg (ne "control" (by decide)), if_neg (ne "ctrl" (by decide)),
      if_neg (ne "alt" (by decide)), if_neg (ne "meta" (by decide)),
      if_neg (ne "windows" (by decide)), if_neg (ne "cmd" (by decide)),
      if_neg (ne "command" (by decide))]
  refine ⟨?_, ?_⟩
  · unfold keyboard_press
    rw [hkey]
  · have hpress : pressPhase [t] = (.ok (), [.text (lowerAscii t)]) := by
      simp [pressPhase, hres, pressEvent]
    have hint : String.intercalate "+" [t] = t := rfl
    unfold keyboard_shortcut
    rw [hpress]
    simp [releasePhase, hrel, hint]

/-- Claim C6 witness: `keyboard_press "a"` is rejected while
`keyboard_shortcut ["a"]` succeeds, injecting the text `"a"`. -/
theorem single_char_press_vs_shortcut_witness :
    keyboard_press "a" =
      (.error "Unsupported key: a. Use special key names like 'enter', 'tab', 'escape', etc.",
       []) ∧
    keyboard_shortcut ["a"] =
      (.ok "Executed keyboard shortcut: a", [.text "a"]) :=
  single_char_press_vs_shortcut "a" (by decide)

/-- Claim C2 counterexample: with the main window present and the bubble
window absent, `expand_from_bubble` does not fail with `WindowNotFound` —
it succeeds and mutates visibility (shows and focuses main). -/
theorem expand_from_bubble_ignores_bubble_cex :
    expand_from_bubble ⟨true, false, false, false⟩ (.ok ()) =
      (.ok "Expanded to main window", ⟨true, false, true, false⟩,
       [.showMain, .focusMain]) := rfl

/-- Claim C2 amended: `toggle_main_window` and `minimize_to_bubble` fail
with the window-not-found error and perform no show/hide/focus effect when
either window is absent; `expand_from_bubble` checks only the main window,
failing without any effect when main is absent (it does not require the
bubble window to exist). -/
theorem window_ops_missing_window (s : WinState) (visQ : Except String Bool)
    (f g : Except String Unit)
    (h : s.mainExists = false ∨ s.bubbleExists = false) :
    toggle_main_window s visQ f =
      (.error (if s.mainExists = false then "Main window not found"
               else "Bubble window not found"), s, []) ∧
    minimize_to_bubble s =
      (.error (if s.mainExists = false then "Main window not found"
               else "Bubble window not found"), s, []) ∧
    (s.mainExists = false →
      expand_from_bubble s g = (.error "Main window not found", s, [])) := by
  by_cases hm : s.mainExists = false
  · simp [toggle_main_window, minimize_to_bubble, expand_from_bubble, hm]
  · rcases h with h | h
    · exact absurd h hm
    · simp [toggle_main_window, minimize_to_bubble, expand_from_bubble, hm, h]

/-- Claim C2 amended, witness: with the bubble window absent, toggling and
minimizing fail without any effect. -/
theorem window_ops_missing_window_witness :
    toggle_main_window ⟨true, false, true, false⟩ (.ok true) (.ok ()) =
      (.error "Bubble window not found", ⟨true, false, true, false⟩, []) ∧
    minimize_to_bubble ⟨true, false, true, false⟩ =
      (.error "Bubble window not found", ⟨true, false, true, false⟩, []) := by
  have h := window_ops_missing_window ⟨true, false, true, false⟩ (.ok true)
    (.ok ()) (.ok ()) (Or.inr rfl)
  exact ⟨h.1, h.2.1⟩

/-- Claim C3 counterexample: from the Main state (both windows exist, main
visible, bubble hidden), two consecutive toggles with honest visibility
queries and successful focus end with the bubble window still visible —
not a state observably equivalent to Main. -/
theorem toggle_twice_cex :
    (toggle_main_window ⟨true, true, true, false⟩ (.ok true) (.ok ())).2.1
      = ⟨true, true, false, true⟩ ∧
    (toggle_main_window ⟨true, true, false, true⟩ (.ok false) (.ok ())).2.1
      = ⟨true, true, true, true⟩ :=
  ⟨rfl, rfl⟩

/-- Claim C3 amended: starting from Main (main visible, bubble hidden, both
windows exist), two consecutive toggles with honest visibility queries and
successful focus restore the main window to visible, but the bubble window
remains visible: the final state is main visible and bubble visible, not
the Main state. -/
theorem toggle_twice_bubble_stays_visible (s : WinState)
    (h1 : s.mainExists = true) (h2 : s.bubbleExists = true)
    (h3 : s.mainVisible = true) (h4 : s.bubbleVisible = false) :
    (toggle_main_window s (.ok s.mainVisible) (.ok ())).1
      = .ok "Switched to bubble mode" ∧
    (toggle_main_window
        ((toggle_main_window s (.ok s.mainVisible) (.ok ())).2.1)
        (.ok ((toggle_main_window s (.ok s.mainVisible) (.ok ())).2.1).mainVisible)
        (.ok ())).1 = .ok "Switched to main window" ∧
    (toggle_main_window
        ((toggle_main_window s (.ok s.mainVisible) (.ok ())).2.1)
        (.ok ((toggle_main_window s (.ok s.mainVisible) (.ok ())).2.1).mainVisible)
        (.ok ())).2.1 = ⟨true, true, true, true⟩ := by
  obtain ⟨a, b, c, d⟩ := s
  subst h1 h2 h3 h4
  exact ⟨rfl, rfl, rfl⟩

/-- Claim C3 amended, witness at the concrete Main state. -/
theorem toggle_twice_bubble_stays_visible_witness :
    (toggle_main_window
        ((toggle_main_window ⟨true, true, true, false⟩ (.ok true) (.ok ())).2.1)
        (.ok false) (.ok ())).2.1 = ⟨true, true, true, true⟩ := by
  have h := toggle_twice_bubble_stays_visible ⟨true, true, true, false⟩
    rfl rfl rfl rfl
  exact h.2.2

/-- Claim C8: when both windows exist, `minimize_to_bubble` ends in main
hidden and bubble shown, and running it a second time leaves the visibility
state unchanged. -/
theorem minimize_to_bubble_idempotent (s : WinState)
    (h1 : s.mainExists = true) (h2 : s.bubbleExists = true) :
    ((minimize_to_bubble s).2.1).mainVisible = false ∧
    ((minimize_to_bubble s).2.1).bubbleVisible = true ∧
    (minimize_to_bubble ((minimize_to_bubble s).2.1)).2.1
      = (minimize_to_bubble s).2.1 := by
  obtain ⟨a, b, c, d⟩ := s
  subst h1 h2
  exact ⟨rfl, rfl, rfl⟩

/-- Claim C8 witness at a concrete state with main visible. -/
theorem minimize_to_bubble_idempotent_witness :
    (minimize_to_bubble ((minimize_to_bubble ⟨true, true, true, false⟩).2.1)).2.1
      = (minimize_to_bubble ⟨true, true, true, false⟩).2.1 :=
  (minimize_to_bubble_idempotent ⟨true, true, true, false⟩ rfl rfl).2.2

/-- Claim C9: when both windows exist and the main-window visibility query
errors, `toggle_main_window` behaves exactly as if the query had returned
false: it takes the show-main branch (show and focus main) and surfaces no
error from the query. -/
theorem toggle_query_error_shows_main (s : WinState) (e : String)
    (f : Except String Unit)
    (h1 : s.mainExists = true) (h2 : s.bubbleExists = true) :
    toggle_main_window s (.error e) f = toggle_main_window s (.ok false) f ∧
    (toggle_main_window s (.error e) f).2.2 = [.showMain, .focusMain] ∧
    (toggle_main_window s (.error e) f).2.1 = { s with mainVisible := true } ∧
    (f = .ok () →
      (toggle_main_window s (.error e) f).1 = .ok "Switched to main window") := by
  obtain ⟨a, b, c, d⟩ := s
  subst h1 h2
  cases f with
  | ok u => exact ⟨rfl, rfl, rfl, fun _ => rfl⟩
  | error e2 => exact ⟨rfl, rfl, rfl, fun hc => Except.noConfusion hc⟩

/-- Claim C9 witness: a failing visibility query on a fully-visible state
still takes the show-main branch. -/
theorem toggle_query_error_shows_main_witness :
    toggle_main_window ⟨true, true, true, true⟩ (.error "platform failure") (.ok ())
      = toggle_main_window ⟨true, true, true, true⟩ (.ok false) (.ok ()) ∧
    (toggle_main_window ⟨true, true, true, true⟩
        (.error "platform failure") (.ok ())).1
      = .ok "Switched to main window" := by
  have h := toggle_query_error_shows_main ⟨true, true, true, true⟩
    "platform failure" (.ok ()) rfl rfl
  exact ⟨h.1, h.2.2.2 rfl⟩

end Goldman
